import Mathlib

/-!
Verification of the single-shot weather notification pipeline
(`weather_notif.py`): configuration loading, weather fetch parameter
construction, prompt building, summarization, and the orchestrator's
exit-code / output contract.

The Python script is shallowly embedded: environment variables are
`Option String` values (`none` = unset; Python truthiness makes the
empty string behave like an absent value), exceptions become `Except`
results, the partially-consumed JSON observation becomes a structure of
optional fields, and numeric JSON fields are embedded as integers
rendered in decimal (matching Python's rendering on integer values).
-/

deriving instance DecidableEq for Except

namespace WeatherNotif

/-- Python truthiness of an optional string: `None` and `""` are falsy. -/
def strTruthy : Option String → Bool
  | none => false
  | some s => s ≠ ""

/-- Python `a or b` on an optional string with a string fallback:
the value when truthy, otherwise the fallback. -/
def truthyOr (a : Option String) (b : String) : String :=
  match a with
  | none => b
  | some s => if s = "" then b else s

/-- The `WeatherConfig` dataclass. -/
structure WeatherConfig where
  api_key : String
  city : Option String
  latitude : Option String
  longitude : Option String
  units : String
  custom_location : Option String
  deriving Repr, DecidableEq

/-- Loader `WeatherConfig.from_env`: requires `OPENWEATHERMAP_API_KEY`, and either
`WEATHER_CITY` or both `WEATHER_LAT` and `WEATHER_LON`; `WEATHER_UNITS`
defaults to `"metric"` when unset. Arguments are the raw environment
values in the documented order. -/
def weatherFromEnv (api_key city lat lon units custom_location : Option String) :
    Except String WeatherConfig :=
  if !strTruthy api_key then
    .error "OPENWEATHERMAP_API_KEY is required"
  else if !strTruthy city && !(strTruthy lat && strTruthy lon) then
    .error "Provide WEATHER_CITY or both WEATHER_LAT and WEATHER_LON"
  else
    .ok { api_key := api_key.getD "", city := city, latitude := lat,
          longitude := lon, units := units.getD "metric",
          custom_location := custom_location }

/-- The `OpenAIConfig` dataclass. -/
structure OpenAIConfig where
  api_key : String
  model : String
  deriving Repr, DecidableEq

/-- Loader `OpenAIConfig.from_env`: requires `OPENAI_API_KEY`; `OPENAI_MODEL`
defaults to `"gpt-5"` when unset. -/
def openaiFromEnv (api_key model : Option String) : Except String OpenAIConfig :=
  if !strTruthy api_key then
    .error "OPENAI_API_KEY is required"
  else
    .ok { api_key := api_key.getD "", model := model.getD "gpt-5" }

/-- The `TwilioConfig` dataclass. -/
structure TwilioConfig where
  account_sid : String
  auth_token : String
  from_number : String
  to_number : String
  deriving Repr, DecidableEq

/-- The list comprehension in `TwilioConfig.from_env`: names of the
delivery settings whose value is falsy, in the fixed source order. -/
def twilioMissing (account_sid auth_token from_number to_number : Option String) :
    List String :=
  ([("TWILIO_ACCOUNT_SID", account_sid),
    ("TWILIO_AUTH_TOKEN", auth_token),
    ("TWILIO_FROM_NUMBER", from_number),
    ("TWILIO_TO_NUMBER", to_number)].filter (fun p => !strTruthy p.2)).map Prod.fst

/-- Loader `TwilioConfig.from_env`: aggregates every missing field into one
`ConfigurationError` message; succeeds only when all four are truthy. -/
def twilioFromEnv (account_sid auth_token from_number to_number : Option String) :
    Except String TwilioConfig :=
  match twilioMissing account_sid auth_token from_number to_number with
  | [] =>
      .ok { account_sid := account_sid.getD "", auth_token := auth_token.getD "",
            from_number := from_number.getD "", to_number := to_number.getD "" }
  | m :: rest =>
      .error ("Missing required Twilio configuration: " ++
        String.intercalate ", " (m :: rest))

/-- The query parameters `fetch_weather` puts on the GET request:
credential, units, and exactly one location form. -/
structure FetchParams where
  appid : String
  units : String
  q : Option String
  lat : Option String
  lon : Option String
  deriving Repr, DecidableEq

/-- Parameter construction in `fetch_weather`: `q` when `config.city` is
truthy, otherwise `lat`/`lon`. -/
def fetchParams (config : WeatherConfig) : FetchParams :=
  if strTruthy config.city then
    { appid := config.api_key, units := config.units, q := config.city,
      lat := none, lon := none }
  else
    { appid := config.api_key, units := config.units, q := none,
      lat := config.latitude, lon := config.longitude }

/-- One element of the observation's `weather` array; only `description`
is consumed. -/
structure WeatherEntry where
  description : Option String
  deriving Repr, DecidableEq

/-- The `main` sub-object of the observation; each numeric field is
optional (`none` models both an absent key and a JSON null). -/
structure MainData where
  temp : Option Int
  feels_like : Option Int
  humidity : Option Int
  pressure : Option Int
  deriving Repr, DecidableEq

/-- The `wind` sub-object of the observation. -/
structure WindData where
  speed : Option Int
  deriving Repr, DecidableEq

/-- The partially-consumed JSON weather observation: every nested field
the script reads, each optional. -/
structure WeatherData where
  name : Option String
  weather : Option (List WeatherEntry)
  main : Option MainData
  wind : Option WindData
  deriving Repr, DecidableEq

/-- Helper producing the conditional `parts.append` lines: one line when
the field is present, none otherwise. -/
def optLine (x : Option Int) (f : Int → String) : List String :=
  match x with
  | some v => [f v]
  | none => []

/-- The list `parts` built by `build_weather_prompt`, before joining.
Returns `none` exactly when Python would raise `IndexError`, i.e. when
the `weather` key is present but holds an empty array (the `[0]` index
on `data.get("weather", [{}])`). -/
def buildWeatherParts (data : WeatherData) (units : String)
    (custom_location : Option String) : Option (List String) :=
  let location := truthyOr custom_location (truthyOr data.name "the configured location")
  match data.weather.getD [{ description := none }] with
  | [] => none
  | w :: _ =>
    let main := data.main.getD { temp := none, feels_like := none,
                                 humidity := none, pressure := none }
    let wind := data.wind.getD { speed := none }
    let description := w.description.getD "no description available"
    some (["Write a concise, friendly weather update for an SMS message.",
           s!"Location: {location}.",
           s!"Conditions: {description}."]
      ++ optLine main.temp (fun t => s!"Temperature: {t}° ({units}).")
      ++ optLine main.feels_like (fun t => s!"Feels like: {t}° ({units}).")
      ++ optLine main.humidity (fun h => s!"Humidity: {h}%.")
      ++ optLine main.pressure (fun p => s!"Pressure: {p} hPa.")
      ++ optLine wind.speed (fun s => s!"Wind speed: {s} m/s.")
      ++ ["Keep the tone warm and clear, and include a simple suggestion if helpful."])

/-- Function `build_weather_prompt`: the joined prompt string (`"\n".join(parts)`). -/
def buildWeatherPrompt (data : WeatherData) (units : String)
    (custom_location : Option String) : Option String :=
  (buildWeatherParts data units custom_location).map (String.intercalate "\n")

/-- The exception classes distinguished by `main`'s handlers:
`ConfigurationError`, `requests.HTTPError` (carrying the upstream
status), and any other `Exception`. -/
inductive PyExc where
  | configuration (msg : String)
  | httpError (status : Nat)
  | other (msg : String)
  deriving Repr, DecidableEq

/-- Python `str.strip()` with no argument: remove leading and trailing
whitespace. -/
def pyStrip (s : String) : String :=
  ⟨((s.data.dropWhile Char.isWhitespace).reverse.dropWhile
      Char.isWhitespace).reverse⟩

/-- The trimming-and-emptiness check at the end of `summarize_weather`,
applied to the provider's `output_text`. -/
def summarizeWeather (output_text : String) : Except PyExc String :=
  let content := pyStrip output_text
  if content = "" then .error (.other "OpenAI response was empty")
  else .ok content

/-- The weather provider's HTTP response: status code and (when parsed)
observation body. -/
structure HttpResponse where
  status : Nat
  body : WeatherData
  deriving Repr, DecidableEq

/-- Check `response.raise_for_status()`: `requests` raises `HTTPError` for
status codes in [400, 600). -/
def raiseForStatus (status : Nat) : Except PyExc Unit :=
  if 400 ≤ status ∧ status < 600 then .error (.httpError status) else .ok ()

/-- Function `fetch_weather`: builds the request parameters from the config,
checks the response status, and returns the parsed body. -/
def fetchWeather (config : WeatherConfig) (resp : HttpResponse) :
    Except PyExc WeatherData :=
  let _params := fetchParams config
  match raiseForStatus resp.status with
  | .error e => .error e
  | .ok _ => .ok resp.body

/-- One invocation's external world: the raw environment variables and
the outcomes the three providers would return if called. -/
structure World where
  owm_api_key : Option String
  weather_city : Option String
  weather_lat : Option String
  weather_lon : Option String
  weather_units : Option String
  weather_custom_location : Option String
  openai_api_key : Option String
  openai_model : Option String
  twilio_sid : Option String
  twilio_token : Option String
  twilio_from : Option String
  twilio_to : Option String
  weatherResponse : HttpResponse
  openaiOutput : Except String String
  twilioSend : Except String Unit

/-- The OpenAI call in `summarize_weather`: a transport error propagates
as a generic exception, otherwise the output text is trimmed and
checked. -/
def summarizeCall (w : World) : Except PyExc String :=
  match w.openaiOutput with
  | .error m => .error (.other m)
  | .ok text => summarizeWeather text

/-- The Twilio call in `send_sms`: a provider error propagates as a
generic exception. -/
def sendSms (w : World) : Except PyExc Unit :=
  match w.twilioSend with
  | .error m => .error (.other m)
  | .ok _ => .ok ()

/-- Observable outcome of one run of `main`: exit code, the lines
printed to standard output and standard error, whether the generation
and delivery providers were invoked, and the message delivered (if
delivery succeeded). -/
structure RunResult where
  exitCode : Nat
  stdout : List String
  stderr : List String
  openaiCalled : Bool
  twilioCalled : Bool
  delivered : Option String
  deriving Repr, DecidableEq

/-- The diagnostic line each `except` clause of `main` prints. -/
def excLine : PyExc → String
  | .configuration m => "Configuration error: " ++ m
  | .httpError st => "Failed to fetch weather data: " ++ toString st
  | .other m => "Unexpected error: " ++ m

/-- Outcome of a failing run: exit code 1 and one categorized diagnostic
on standard error. -/
def failResult (e : PyExc) (openaiCalled twilioCalled : Bool) : RunResult :=
  { exitCode := 1, stdout := [], stderr := [excLine e],
    openaiCalled := openaiCalled, twilioCalled := twilioCalled,
    delivered := none }

/-- Function `main`: the linear pipeline with its `try`/`except` exit-code
mapping. A `none` from the prompt builder is Python's `IndexError`,
caught by the last-resort handler. -/
def mainRun (w : World) : RunResult :=
  match weatherFromEnv w.owm_api_key w.weather_city w.weather_lat w.weather_lon
      w.weather_units w.weather_custom_location with
  | .error m => failResult (.configuration m) false false
  | .ok wcfg =>
    match openaiFromEnv w.openai_api_key w.openai_model with
    | .error m => failResult (.configuration m) false false
    | .ok _ocfg =>
      match twilioFromEnv w.twilio_sid w.twilio_token w.twilio_from w.twilio_to with
      | .error m => failResult (.configuration m) false false
      | .ok _tcfg =>
        match fetchWeather wcfg w.weatherResponse with
        | .error e => failResult e false false
        | .ok data =>
          match buildWeatherPrompt data wcfg.units wcfg.custom_location with
          | none => failResult (.other "list index out of range") false false
          | some _prompt =>
            match summarizeCall w with
            | .error e => failResult e true false
            | .ok summary =>
              match sendSms w with
              | .error e => failResult e true true
              | .ok _ =>
                { exitCode := 0,
                  stdout := ["Weather summary sent successfully:", summary],
                  stderr := [], openaiCalled := true, twilioCalled := true,
                  delivered := some summary }

/-! ### Spec-side description of the rendered prompt (§4.3)

The following `spec…` definitions restate the specification's wording for
the Prompt Builder — "a location line using the override, else the
observed name, else a fallback literal; a conditions line using the
description, else a fallback literal; then one line per numeric field
that is present, in the fixed order" — to be compared with the
source-derived `buildWeatherParts`. Presence of a string field follows
the empty-string-is-absent convention established elsewhere in the
configuration surface. -/

/-- Spec wording: the observed name when present, else the fallback
literal. -/
def specName (observed : Option String) : String :=
  match observed with
  | some n => if n = "" then "the configured location" else n
  | none => "the configured location"

/-- Spec wording: the override when present, else the observed name,
else the fallback literal. -/
def specLocation (override observed : Option String) : String :=
  match override with
  | some c => if c = "" then specName observed else c
  | none => specName observed

/-- Spec wording: the description when present, else the fallback
literal. -/
def specConditions (weather : Option (List WeatherEntry)) : String :=
  match weather with
  | some (e :: _) =>
    (match e.description with
     | some d => d
     | none => "no description available")
  | _ => "no description available"

/-- Spec accessor: the observation's temperature, when present. -/
def specTemp (data : WeatherData) : Option Int :=
  data.main.bind MainData.temp

/-- Spec accessor: the observation's feels-like temperature, when
present. -/
def specFeelsLike (data : WeatherData) : Option Int :=
  data.main.bind MainData.feels_like

/-- Spec accessor: the observation's humidity, when present. -/
def specHumidity (data : WeatherData) : Option Int :=
  data.main.bind MainData.humidity

/-- Spec accessor: the observation's pressure, when present. -/
def specPressure (data : WeatherData) : Option Int :=
  data.main.bind MainData.pressure

/-- Spec accessor: the observation's wind speed, when present. -/
def specWindSpeed (data : WeatherData) : Option Int :=
  data.wind.bind WindData.speed

/-- Spec wording: one line per numeric field that is present, in the
fixed order temperature, feels-like, humidity, pressure, wind speed,
each with its unit label. -/
def specNumericLines (data : WeatherData) (units : String) : List String :=
  (match specTemp data with
   | some t => [s!"Temperature: {t}° ({units})."]
   | none => []) ++
  (match specFeelsLike data with
   | some t => [s!"Feels like: {t}° ({units})."]
   | none => []) ++
  (match specHumidity data with
   | some h => [s!"Humidity: {h}%."]
   | none => []) ++
  (match specPressure data with
   | some p => [s!"Pressure: {p} hPa."]
   | none => []) ++
  (match specWindSpeed data with
   | some s => [s!"Wind speed: {s} m/s."]
   | none => [])

/-- Spec wording for the whole prompt: fixed instruction line, location
line, conditions line, the numeric lines, fixed closing line. -/
def promptSpecLines (data : WeatherData) (units : String)
    (custom_location : Option String) : List String :=
  let loc := specLocation custom_location data.name
  let cond := specConditions data.weather
  ["Write a concise, friendly weather update for an SMS message.",
   s!"Location: {loc}.",
   s!"Conditions: {cond}."]
  ++ specNumericLines data units
  ++ ["Keep the tone warm and clear, and include a simple suggestion if helpful."]

/-! ### Concrete fixtures used by witnesses and counterexamples -/

/-- Scenario A observation: `Berlin`, `clear sky`, all numeric fields
present. -/
def scenarioA : WeatherData :=
  { name := some "Berlin",
    weather := some [{ description := some "clear sky" }],
    main := some { temp := some 18, feels_like := some 17,
                   humidity := some 40, pressure := some 1012 },
    wind := some { speed := some 3 } }

/-- A configuration selected by place name only. -/
def cfgCityOnly : WeatherConfig :=
  { api_key := "k", city := some "Berlin,de", latitude := none,
    longitude := none, units := "metric", custom_location := none }

/-- A configuration the loader accepts in which both location forms are
resolvable. -/
def cfgBothForms : WeatherConfig :=
  { api_key := "k", city := some "Berlin,de", latitude := some "52.5",
    longitude := some "13.4", units := "metric", custom_location := none }

/-- Scenario C world: valid configuration, weather provider answers 401,
both later providers would succeed if called. -/
def worldScenarioC : World :=
  { owm_api_key := some "k", weather_city := some "Berlin,de",
    weather_lat := none, weather_lon := none, weather_units := none,
    weather_custom_location := none,
    openai_api_key := some "ok", openai_model := none,
    twilio_sid := some "sid", twilio_token := some "tok",
    twilio_from := some "+1", twilio_to := some "+2",
    weatherResponse := { status := 401,
                         body := { name := none, weather := none,
                                   main := none, wind := none } },
    openaiOutput := .ok "x", twilioSend := .ok () }

/-! ### Helper lemmas -/

/-- A truthy optional string is a `some` of a non-empty string. -/
lemma strTruthy_iff (o : Option String) :
    strTruthy o = true ↔ ∃ s, o = some s ∧ s ≠ "" := by
  cases o <;> simp [strTruthy]

/-- Inversion for `weatherFromEnv`: an accepted configuration records
the environment values verbatim, and the acceptance conditions hold. -/
lemma weatherFromEnv_ok {a c la lo u cl : Option String} {cfg : WeatherConfig}
    (h : weatherFromEnv a c la lo u cl = .ok cfg) :
    cfg = { api_key := a.getD "", city := c, latitude := la, longitude := lo,
            units := u.getD "metric", custom_location := cl }
    ∧ strTruthy a = true
    ∧ (strTruthy c = true ∨ (strTruthy la = true ∧ strTruthy lo = true)) := by
  unfold weatherFromEnv at h
  by_cases ha : strTruthy a
  · by_cases hc : strTruthy c
    · simp [ha, hc] at h
      exact ⟨h.symm, ha, Or.inl hc⟩
    · by_cases hla : strTruthy la
      · by_cases hlo : strTruthy lo
        · simp [ha, hc, hla, hlo] at h
          exact ⟨h.symm, ha, Or.inr ⟨hla, hlo⟩⟩
        · simp [ha, hc, hla, hlo] at h
      · simp [ha, hc, hla] at h
  · simp [ha] at h

/-- The units parameter on the request always copies the
configuration's units value, whichever location form is chosen. -/
lemma fetchParams_units (cfg : WeatherConfig) :
    (fetchParams cfg).units = cfg.units := by
  unfold fetchParams
  split <;> rfl

/-- The source's `or`-chain for the location equals the spec's
override-else-name-else-fallback choice. -/
lemma truthyOr_specLocation (o n : Option String) :
    truthyOr o (truthyOr n "the configured location") = specLocation o n := by
  cases o <;> cases n <;> simp [truthyOr, specLocation, specName]

/-! ### Claim theorems -/

/-- C7: the summarizer raises its empty-response error if and only if
the provider's output text, trimmed of surrounding whitespace, is empty;
for every non-empty trimmed output it returns exactly that trimmed
text. -/
theorem summarize_empty_iff_trim_empty (s : String) :
    (summarizeWeather s = .error (.other "OpenAI response was empty") ↔ pyStrip s = "")
    ∧ (pyStrip s ≠ "" → summarizeWeather s = .ok (pyStrip s)) := by
  refine ⟨⟨fun h => ?_, fun h => ?_⟩, fun h => ?_⟩
  · by_cases he : pyStrip s = ""
    · exact he
    · simp [summarizeWeather, he] at h
  · simp [summarizeWeather, h]
  · simp [summarizeWeather, h]

/-- Witness for C7 at concrete inputs: a whitespace-only output raises
the empty-response error, and `"  hi "` is returned as `"hi"`. -/
theorem summarize_empty_iff_trim_empty_witness :
    summarizeWeather "  " = .error (.other "OpenAI response was empty")
    ∧ summarizeWeather "  hi " = .ok "hi" := by
  constructor
  · exact (summarize_empty_iff_trim_empty "  ").1.2 (by decide)
  · have h := (summarize_empty_iff_trim_empty "  hi ").2 (by decide)
    exact h.trans (congrArg Except.ok (by decide))

/-- C8 counterexample: the loader accepts an environment in which the
place name and both coordinates are all set, producing a configuration
in which both location forms are resolvable — so it is not the case that
every accepted configuration has exactly one resolvable form. -/
theorem weather_config_both_forms_accepted :
    weatherFromEnv (some "k") (some "Berlin,de") (some "52.5") (some "13.4")
        none none = .ok cfgBothForms
    ∧ strTruthy cfgBothForms.city = true
    ∧ strTruthy cfgBothForms.latitude = true
    ∧ strTruthy cfgBothForms.longitude = true := by
  decide

/-- C8 (amended): loading the weather configuration raises a
`ConfigurationError` naming the missing variable(s) when the API key is
absent or when no location form resolves, and every configuration it
accepts has at least one resolvable location form (place name present,
or both coordinates present). -/
theorem weather_from_env_at_least_one_form (a c la lo u cl : Option String) :
    (strTruthy a = false →
      weatherFromEnv a c la lo u cl = .error "OPENWEATHERMAP_API_KEY is required")
    ∧ (strTruthy a = true → strTruthy c = false →
        (strTruthy la && strTruthy lo) = false →
        weatherFromEnv a c la lo u cl =
          .error "Provide WEATHER_CITY or both WEATHER_LAT and WEATHER_LON")
    ∧ (∀ cfg, weatherFromEnv a c la lo u cl = .ok cfg →
        strTruthy cfg.city = true
        ∨ (strTruthy cfg.latitude = true ∧ strTruthy cfg.longitude = true)) := by
  refine ⟨fun ha => ?_, fun ha hc hll => ?_, fun cfg h => ?_⟩
  · simp [weatherFromEnv, ha]
  · simp [weatherFromEnv, ha, hc, hll]
  · obtain ⟨hcfg, _, hforms⟩ := weatherFromEnv_ok h
    subst hcfg
    exact hforms

/-- Witness for C8 (amended) at concrete inputs: a missing API key, an
environment with no resolvable location form, and an accepted
configuration with a resolvable form. -/
theorem weather_from_env_at_least_one_form_witness :
    weatherFromEnv none (some "Berlin,de") none none none none =
      .error "OPENWEATHERMAP_API_KEY is required"
    ∧ weatherFromEnv (some "k") none (some "52.5") none none none =
      .error "Provide WEATHER_CITY or both WEATHER_LAT and WEATHER_LON"
    ∧ (strTruthy cfgCityOnly.city = true
        ∨ (strTruthy cfgCityOnly.latitude = true ∧ strTruthy cfgCityOnly.longitude = true)) := by
  refine ⟨?_, ?_, ?_⟩
  · exact (weather_from_env_at_least_one_form none (some "Berlin,de") none none
      none none).1 (by decide)
  · exact (weather_from_env_at_least_one_form (some "k") none (some "52.5") none
      none none).2.1 (by decide) (by decide) (by decide)
  · exact (weather_from_env_at_least_one_form (some "k") (some "Berlin,de") none
      none none none).2.2 cfgCityOnly (by decide)

/-- C1: for every configuration the loader accepts, `fetch_weather`
sends exactly one location form — the place-name parameter `q` when the
place name is truthy (precedence), otherwise the `lat`/`lon` pair —
never both forms and never neither. -/
theorem fetch_sends_exactly_one_location_form
    (a c la lo u cl : Option String) (cfg : WeatherConfig)
    (h : weatherFromEnv a c la lo u cl = .ok cfg) :
    (((fetchParams cfg).q.isSome = true ∧ (fetchParams cfg).lat = none
        ∧ (fetchParams cfg).lon = none)
      ∨ ((fetchParams cfg).q = none ∧ (fetchParams cfg).lat.isSome = true
        ∧ (fetchParams cfg).lon.isSome = true))
    ∧ (strTruthy cfg.city = true → (fetchParams cfg).q = cfg.city) := by
  obtain ⟨hcfg, _, hforms⟩ := weatherFromEnv_ok h
  subst hcfg
  by_cases hc : strTruthy c
  · obtain ⟨s, hs, -⟩ := (strTruthy_iff c).1 hc
    subst hs
    exact ⟨Or.inl (by simp [fetchParams, hc]), fun _ => by simp [fetchParams, hc]⟩
  · rcases hforms with hforms | ⟨hla, hlo⟩
    · simp_all
    · refine ⟨Or.inr ?_, fun hcit => by simp_all⟩
      obtain ⟨s1, hs1, -⟩ := (strTruthy_iff la).1 hla
      obtain ⟨s2, hs2, -⟩ := (strTruthy_iff lo).1 hlo
      subst hs1
      subst hs2
      simp [fetchParams, hc]

/-- Witness for C1: the loader accepts the place-name-only environment
and the resulting request carries `q` and no coordinates. -/
theorem fetch_sends_exactly_one_location_form_witness :
    weatherFromEnv (some "k") (some "Berlin,de") none none none none = .ok cfgCityOnly
    ∧ ((((fetchParams cfgCityOnly).q.isSome = true
          ∧ (fetchParams cfgCityOnly).lat = none
          ∧ (fetchParams cfgCityOnly).lon = none)
        ∨ ((fetchParams cfgCityOnly).q = none
          ∧ (fetchParams cfgCityOnly).lat.isSome = true
          ∧ (fetchParams cfgCityOnly).lon.isSome = true))
      ∧ (strTruthy cfgCityOnly.city = true →
          (fetchParams cfgCityOnly).q = cfgCityOnly.city)) := by
  refine ⟨by decide, ?_⟩
  exact fetch_sends_exactly_one_location_form (some "k") (some "Berlin,de")
    none none none none cfgCityOnly (by decide)

/-- C4: the delivery loader reports every missing-or-empty field — the
missing-name list contains exactly the falsy fields, any missing field
yields a single error whose message joins all of them, and when all four
are non-empty it succeeds with those values. -/
theorem twilio_from_env_aggregates_missing (sid tok fr dst : Option String) :
    (∀ name, name ∈ twilioMissing sid tok fr dst ↔
        ((name = "TWILIO_ACCOUNT_SID" ∧ strTruthy sid = false)
          ∨ (name = "TWILIO_AUTH_TOKEN" ∧ strTruthy tok = false)
          ∨ (name = "TWILIO_FROM_NUMBER" ∧ strTruthy fr = false)
          ∨ (name = "TWILIO_TO_NUMBER" ∧ strTruthy dst = false)))
    ∧ (twilioMissing sid tok fr dst ≠ [] →
        twilioFromEnv sid tok fr dst = .error
          ("Missing required Twilio configuration: " ++
            String.intercalate ", " (twilioMissing sid tok fr dst)))
    ∧ (∀ a b c d : String, sid = some a → tok = some b → fr = some c → dst = some d →
        a ≠ "" → b ≠ "" → c ≠ "" → d ≠ "" →
        twilioFromEnv sid tok fr dst = .ok ⟨a, b, c, d⟩) := by
  refine ⟨fun name => ?_, fun h => ?_, fun a b c d ha hb hc hd na nb nc nd => ?_⟩
  · simp only [twilioMissing, List.mem_map, List.mem_filter]
    constructor
    · rintro ⟨⟨n, v⟩, ⟨hmem, hfalsy⟩, rfl⟩
      simp only [List.mem_cons, List.mem_singleton, List.not_mem_nil, or_false] at hmem
      rcases hmem with h | h | h | h <;>
        · injection h with h1 h2
          subst h1
          subst h2
          simp_all
    · rintro (⟨rfl, hf⟩ | ⟨rfl, hf⟩ | ⟨rfl, hf⟩ | ⟨rfl, hf⟩)
      · exact ⟨("TWILIO_ACCOUNT_SID", sid), ⟨by simp, by simp [hf]⟩, rfl⟩
      · exact ⟨("TWILIO_AUTH_TOKEN", tok), ⟨by simp, by simp [hf]⟩, rfl⟩
      · exact ⟨("TWILIO_FROM_NUMBER", fr), ⟨by simp, by simp [hf]⟩, rfl⟩
      · exact ⟨("TWILIO_TO_NUMBER", dst), ⟨by simp, by simp [hf]⟩, rfl⟩
  · unfold twilioFromEnv
    rcases hm : twilioMissing sid tok fr dst with _ | ⟨m, rest⟩
    · exact absurd hm h
    · rfl
  · subst ha
    subst hb
    subst hc
    subst hd
    have hm : twilioMissing (some a) (some b) (some c) (some d) = [] := by
      simp [twilioMissing, strTruthy, na, nb, nc, nd]
    simp [twilioFromEnv, hm]

/-- Witness for C4 at concrete inputs: with two of four fields missing
(one unset, one empty) the single error names both, and with all four
non-empty loading succeeds with those values. -/
theorem twilio_from_env_aggregates_missing_witness :
    twilioFromEnv (some "") none (some "+1") (some "+2") = .error
      "Missing required Twilio configuration: TWILIO_ACCOUNT_SID, TWILIO_AUTH_TOKEN"
    ∧ twilioFromEnv (some "sid") (some "tok") (some "+1") (some "+2") =
      .ok ⟨"sid", "tok", "+1", "+2"⟩
    ∧ "TWILIO_ACCOUNT_SID" ∈ twilioMissing (some "") none (some "+1") (some "+2")
    ∧ "TWILIO_AUTH_TOKEN" ∈ twilioMissing (some "") none (some "+1") (some "+2") := by
  refine ⟨?_, ?_, ?_, ?_⟩
  · have h := (twilio_from_env_aggregates_missing (some "") none (some "+1")
      (some "+2")).2.1 (by decide)
    exact h.trans (by rfl)
  · exact (twilio_from_env_aggregates_missing (some "sid") (some "tok") (some "+1")
      (some "+2")).2.2 "sid" "tok" "+1" "+2" rfl rfl rfl rfl
      (by decide) (by decide) (by decide) (by decide)
  · exact (twilio_from_env_aggregates_missing (some "") none (some "+1")
      (some "+2")).1 "TWILIO_ACCOUNT_SID" |>.2 (Or.inl ⟨rfl, by decide⟩)
  · exact (twilio_from_env_aggregates_missing (some "") none (some "+1")
      (some "+2")).1 "TWILIO_AUTH_TOKEN" |>.2 (Or.inr (Or.inl ⟨rfl, by decide⟩))

/-- C2 counterexample: the claim quantifies over every observation,
but on an observation whose `weather` key holds an empty array the
builder fails (Python raises `IndexError`) instead of producing the
spec-described line sequence. -/
theorem build_weather_prompt_spec_counterexample :
    buildWeatherPrompt (WeatherData.mk (some "Berlin") (some []) none none)
      "metric" none = none
    ∧ buildWeatherPrompt (WeatherData.mk (some "Berlin") (some []) none none)
        "metric" none ≠
      some (String.intercalate "\n"
        (promptSpecLines (WeatherData.mk (some "Berlin") (some []) none none)
          "metric" none)) := by
  decide

/-- C2 (amended): the prompt builder is a pure function and, for every
observation whose `weather` array is not present-but-empty, produces
exactly the spec-described sequence — instruction line, location line
(override, else observed name, else fallback), conditions line
(description, else fallback), one line per present numeric field in the
fixed order with its unit label, closing line — joined by newlines; and
on the Scenario A observation all five numeric lines appear in order
with location `Berlin` and conditions `clear sky`. -/
theorem build_weather_prompt_matches_spec :
    (∀ (data : WeatherData) (units : String) (custom : Option String),
        data.weather ≠ some [] →
        buildWeatherPrompt data units custom =
          some (String.intercalate "\n" (promptSpecLines data units custom)))
    ∧ buildWeatherParts scenarioA "metric" none =
      some ["Write a concise, friendly weather update for an SMS message.",
            "Location: Berlin.",
            "Conditions: clear sky.",
            "Temperature: 18° (metric).",
            "Feels like: 17° (metric).",
            "Humidity: 40%.",
            "Pressure: 1012 hPa.",
            "Wind speed: 3 m/s.",
            "Keep the tone warm and clear, and include a simple suggestion if helpful."] := by
  constructor
  · rintro ⟨name, weather, main, wind⟩ units custom h
    rcases weather with _ | (_ | ⟨⟨_ | d⟩, r⟩)
    · rcases main with _ | ⟨_ | t, _ | f, _ | hu, _ | p⟩ <;>
        rcases wind with _ | ⟨_ | sp⟩ <;>
          simp [buildWeatherPrompt, buildWeatherParts, promptSpecLines,
                specNumericLines, specTemp, specFeelsLike, specHumidity,
                specPressure, specWindSpeed, specConditions, optLine,
                truthyOr_specLocation]
    · exact absurd rfl h
    · rcases main with _ | ⟨_ | t, _ | f, _ | hu, _ | p⟩ <;>
        rcases wind with _ | ⟨_ | sp⟩ <;>
          simp [buildWeatherPrompt, buildWeatherParts, promptSpecLines,
                specNumericLines, specTemp, specFeelsLike, specHumidity,
                specPressure, specWindSpeed, specConditions, optLine,
                truthyOr_specLocation]
    · rcases main with _ | ⟨_ | t, _ | f, _ | hu, _ | p⟩ <;>
        rcases wind with _ | ⟨_ | sp⟩ <;>
          simp [buildWeatherPrompt, buildWeatherParts, promptSpecLines,
                specNumericLines, specTemp, specFeelsLike, specHumidity,
                specPressure, specWindSpeed, specConditions, optLine,
                truthyOr_specLocation]
  · decide

/-- Witness for C2: the general clause applied to the Scenario A
observation. -/
theorem build_weather_prompt_matches_spec_witness :
    scenarioA.weather ≠ some [] ∧
    buildWeatherPrompt scenarioA "metric" none =
      some (String.intercalate "\n" (promptSpecLines scenarioA "metric" none)) := by
  exact ⟨by decide, build_weather_prompt_matches_spec.1 scenarioA "metric" none (by decide)⟩

/-- C3 counterexample: an observation whose `name` (and `main`, `wind`)
fields are absent but whose `weather` key holds an empty array makes
`build_weather_prompt` fail (Python raises `IndexError` on
`data.get("weather", [\x7b\x7d])[0]`), so the builder does not succeed
on every observation with an absent nested field. -/
theorem build_weather_prompt_empty_weather_array :
    (WeatherData.mk none (some []) none none).name = none
    ∧ buildWeatherPrompt (WeatherData.mk none (some []) none none) "metric" none
      = none := by
  decide

/-- C3 (amended): for every observation whose `weather` array, when
present, is non-empty, the prompt builder succeeds regardless of which
other nested fields are absent, treating each absent field as null; and
with `main` and `wind` entirely absent the result is exactly the
instruction, location, conditions, and closing lines. -/
theorem build_weather_prompt_degrades_gracefully :
    (∀ (data : WeatherData) (units : String) (custom : Option String),
        data.weather ≠ some [] →
        (buildWeatherPrompt data units custom).isSome = true)
    ∧ (∀ (name : Option String) (weather : Option (List WeatherEntry))
          (units : String) (custom : Option String),
        weather ≠ some [] →
        ∃ loc cond : String,
          buildWeatherParts ⟨name, weather, none, none⟩ units custom =
            some ["Write a concise, friendly weather update for an SMS message.",
                  s!"Location: {loc}.",
                  s!"Conditions: {cond}.",
                  "Keep the tone warm and clear, and include a simple suggestion if helpful."]) := by
  constructor
  · rintro ⟨name, weather, main, wind⟩ units custom h
    rcases weather with _ | (_ | ⟨e, r⟩)
    · simp [buildWeatherPrompt, buildWeatherParts]
    · exact absurd rfl h
    · simp [buildWeatherPrompt, buildWeatherParts]
  · intro name weather units custom h
    rcases weather with _ | (_ | ⟨⟨_ | d⟩, r⟩)
    · exact ⟨truthyOr custom (truthyOr name "the configured location"),
        "no description available", by simp [buildWeatherParts, optLine]⟩
    · exact absurd rfl h
    · exact ⟨truthyOr custom (truthyOr name "the configured location"),
        "no description available", by simp [buildWeatherParts, optLine]⟩
    · exact ⟨truthyOr custom (truthyOr name "the configured location"),
        d, by simp [buildWeatherParts, optLine]⟩

/-- Witness for C3 (amended): the Scenario B observation (`main` and
`wind` absent) renders, and renders exactly four lines. -/
theorem build_weather_prompt_degrades_gracefully_witness :
    (buildWeatherPrompt (WeatherData.mk (some "Berlin") none none none)
        "metric" none).isSome = true
    ∧ ∃ loc cond : String,
        buildWeatherParts (WeatherData.mk (some "Berlin") none none none)
            "metric" none =
          some ["Write a concise, friendly weather update for an SMS message.",
                s!"Location: {loc}.",
                s!"Conditions: {cond}.",
                "Keep the tone warm and clear, and include a simple suggestion if helpful."] := by
  exact ⟨build_weather_prompt_degrades_gracefully.1
      (WeatherData.mk (some "Berlin") none none none) "metric" none (by decide),
    build_weather_prompt_degrades_gracefully.2 (some "Berlin") none "metric" none
      (by decide)⟩

/-- C5: for every world, the run either exits 0 having delivered a
message, with exactly two standard-output lines (the fixed confirmation
literal then the delivered text) and nothing on standard error, or it
exits 1 having delivered nothing, with no standard output and exactly
one standard-error diagnostic carrying one of the three category
prefixes. -/
theorem main_exit_output_contract (w : World) :
    ((mainRun w).exitCode = 0
      ∧ (mainRun w).stderr = []
      ∧ ∃ m, (mainRun w).delivered = some m
          ∧ (mainRun w).stdout = ["Weather summary sent successfully:", m])
    ∨ ((mainRun w).exitCode = 1
      ∧ (mainRun w).stdout = []
      ∧ (mainRun w).delivered = none
      ∧ ∃ d, (mainRun w).stderr = [d]
          ∧ ∃ m, d = "Configuration error: " ++ m
              ∨ d = "Failed to fetch weather data: " ++ m
              ∨ d = "Unexpected error: " ++ m) := by
  unfold mainRun
  split
  · exact Or.inr ⟨rfl, rfl, rfl, _, rfl, _, Or.inl rfl⟩
  · split
    · exact Or.inr ⟨rfl, rfl, rfl, _, rfl, _, Or.inl rfl⟩
    · split
      · exact Or.inr ⟨rfl, rfl, rfl, _, rfl, _, Or.inl rfl⟩
      · split
        · rename_i e _
          rcases e with m | st | m
          · exact Or.inr ⟨rfl, rfl, rfl, _, rfl, _, Or.inl rfl⟩
          · exact Or.inr ⟨rfl, rfl, rfl, _, rfl, _, Or.inr (Or.inl rfl)⟩
          · exact Or.inr ⟨rfl, rfl, rfl, _, rfl, _, Or.inr (Or.inr rfl)⟩
        · split
          · exact Or.inr ⟨rfl, rfl, rfl, _, rfl, _, Or.inr (Or.inr rfl)⟩
          · split
            · rename_i e _
              rcases e with m | st | m
              · exact Or.inr ⟨rfl, rfl, rfl, _, rfl, _, Or.inl rfl⟩
              · exact Or.inr ⟨rfl, rfl, rfl, _, rfl, _, Or.inr (Or.inl rfl)⟩
              · exact Or.inr ⟨rfl, rfl, rfl, _, rfl, _, Or.inr (Or.inr rfl)⟩
            · split
              · rename_i e _
                rcases e with m | st | m
                · exact Or.inr ⟨rfl, rfl, rfl, _, rfl, _, Or.inl rfl⟩
                · exact Or.inr ⟨rfl, rfl, rfl, _, rfl, _, Or.inr (Or.inl rfl)⟩
                · exact Or.inr ⟨rfl, rfl, rfl, _, rfl, _, Or.inr (Or.inr rfl)⟩
              · exact Or.inl ⟨rfl, rfl, _, rfl, rfl⟩

/-- C6: whenever the three configuration groups load but the weather
provider answers a non-success HTTP status, the run exits 1 with the
fetch-failure diagnostic and neither the summarizer nor the notifier is
invoked. -/
theorem fetch_failure_halts_pipeline (w : World)
    (hw : ∃ c, weatherFromEnv w.owm_api_key w.weather_city w.weather_lat
        w.weather_lon w.weather_units w.weather_custom_location = .ok c)
    (ho : ∃ c, openaiFromEnv w.openai_api_key w.openai_model = .ok c)
    (ht : ∃ c, twilioFromEnv w.twilio_sid w.twilio_token w.twilio_from
        w.twilio_to = .ok c)
    (h4 : 400 ≤ w.weatherResponse.status)
    (h6 : w.weatherResponse.status < 600) :
    (mainRun w).exitCode = 1
    ∧ (mainRun w).openaiCalled = false
    ∧ (mainRun w).twilioCalled = false
    ∧ (mainRun w).stderr =
      ["Failed to fetch weather data: " ++ toString w.weatherResponse.status] := by
  obtain ⟨cw, hcw⟩ := hw
  obtain ⟨co, hco⟩ := ho
  obtain ⟨ct, hct⟩ := ht
  have hfetch : fetchWeather cw w.weatherResponse =
      .error (.httpError w.weatherResponse.status) := by
    simp [fetchWeather, raiseForStatus, h4, h6]
  unfold mainRun
  simp only [hcw, hco, hct, hfetch]
  exact ⟨rfl, rfl, rfl, rfl⟩

/-- Witness for C6: the Scenario C world — valid configuration, HTTP
401 — exits 1 with the fetch diagnostic and no provider calls. -/
theorem fetch_failure_halts_pipeline_witness :
    (mainRun worldScenarioC).exitCode = 1
    ∧ (mainRun worldScenarioC).openaiCalled = false
    ∧ (mainRun worldScenarioC).twilioCalled = false
    ∧ (mainRun worldScenarioC).stderr = ["Failed to fetch weather data: 401"] := by
  have h := fetch_failure_halts_pipeline worldScenarioC
    ⟨_, rfl⟩ ⟨_, rfl⟩ ⟨_, rfl⟩ (by decide) (by decide)
  exact ⟨h.1, h.2.1, h.2.2.1, h.2.2.2.trans (by rfl)⟩

/-- C9: an empty string behaves like an absent value throughout — an
empty place name is not a resolvable location form (and if coordinates
make the configuration acceptable, the request still uses them, not the
place name), an empty delivery field is listed as missing, and an empty
display-location override falls back exactly as an absent one. -/
theorem empty_string_treated_as_absent :
    (∀ a la lo u cl, strTruthy a = true → (strTruthy la && strTruthy lo) = false →
        weatherFromEnv a (some "") la lo u cl =
          .error "Provide WEATHER_CITY or both WEATHER_LAT and WEATHER_LON")
    ∧ (∀ a la lo u cl cfg, weatherFromEnv a (some "") la lo u cl = .ok cfg →
        (fetchParams cfg).q = none
        ∧ (fetchParams cfg).lat = cfg.latitude
        ∧ (fetchParams cfg).lon = cfg.longitude)
    ∧ (∀ tok fr dst, "TWILIO_ACCOUNT_SID" ∈ twilioMissing (some "") tok fr dst)
    ∧ (∀ sid fr dst, "TWILIO_AUTH_TOKEN" ∈ twilioMissing sid (some "") fr dst)
    ∧ (∀ sid tok dst, "TWILIO_FROM_NUMBER" ∈ twilioMissing sid tok (some "") dst)
    ∧ (∀ sid tok fr, "TWILIO_TO_NUMBER" ∈ twilioMissing sid tok fr (some ""))
    ∧ (∀ data units, buildWeatherPrompt data units (some "") =
        buildWeatherPrompt data units none) := by
  refine ⟨fun a la lo u cl ha hll => ?_, fun a la lo u cl cfg h => ?_,
    fun tok fr dst => ?_, fun sid fr dst => ?_, fun sid tok dst => ?_,
    fun sid tok fr => ?_, fun data units => ?_⟩
  · have h0 : strTruthy (some "") = false := rfl
    simp [weatherFromEnv, ha, h0, hll]
  · obtain ⟨hcfg, -, -⟩ := weatherFromEnv_ok h
    subst hcfg
    simp [fetchParams, strTruthy]
  · simp only [twilioMissing, List.mem_map, List.mem_filter]
    exact ⟨("TWILIO_ACCOUNT_SID", some ""), ⟨by simp, by simp [strTruthy]⟩, rfl⟩
  · simp only [twilioMissing, List.mem_map, List.mem_filter]
    exact ⟨("TWILIO_AUTH_TOKEN", some ""), ⟨by simp, by simp [strTruthy]⟩, rfl⟩
  · simp only [twilioMissing, List.mem_map, List.mem_filter]
    exact ⟨("TWILIO_FROM_NUMBER", some ""), ⟨by simp, by simp [strTruthy]⟩, rfl⟩
  · simp only [twilioMissing, List.mem_map, List.mem_filter]
    exact ⟨("TWILIO_TO_NUMBER", some ""), ⟨by simp, by simp [strTruthy]⟩, rfl⟩
  · simp [buildWeatherPrompt, buildWeatherParts, truthyOr]

/-- Witness for C9 at concrete inputs: an empty city with no
coordinates is rejected; with coordinates, the empty city is accepted
but the coordinates are sent; empty delivery fields are listed; an empty
override falls back to the observed name. -/
theorem empty_string_treated_as_absent_witness :
    weatherFromEnv (some "k") (some "") none none none none =
      .error "Provide WEATHER_CITY or both WEATHER_LAT and WEATHER_LON"
    ∧ (∀ cfg, weatherFromEnv (some "k") (some "") (some "52.5") (some "13.4")
          none none = .ok cfg →
        (fetchParams cfg).q = none
        ∧ (fetchParams cfg).lat = cfg.latitude
        ∧ (fetchParams cfg).lon = cfg.longitude)
    ∧ "TWILIO_ACCOUNT_SID" ∈ twilioMissing (some "") (some "t") (some "f") (some "g")
    ∧ buildWeatherPrompt scenarioA "metric" (some "") =
      buildWeatherPrompt scenarioA "metric" none := by
  refine ⟨?_, ?_, ?_, ?_⟩
  · exact (empty_string_treated_as_absent).1 (some "k") none none none none
      (by decide) (by decide)
  · exact fun cfg h => (empty_string_treated_as_absent).2.1 (some "k")
      (some "52.5") (some "13.4") none none cfg h
  · exact (empty_string_treated_as_absent).2.2.1 (some "t") (some "f") (some "g")
  · exact (empty_string_treated_as_absent).2.2.2.2.2.2 scenarioA "metric"

/-- C10: the units value is never validated — for every non-empty units
string, including ones outside the metric/imperial enumeration, loading
succeeds (given a key and a location form) with exactly that string, the
fetch request carries it unchanged, and the rendered temperature line
annotates with it unchanged. -/
theorem units_passed_through_unvalidated (u : String) (_hu : u ≠ "") :
    (∀ k c la lo cl, strTruthy k = true →
        (strTruthy c = true ∨ (strTruthy la = true ∧ strTruthy lo = true)) →
        ∃ cfg, weatherFromEnv k c la lo (some u) cl = .ok cfg
          ∧ cfg.units = u ∧ (fetchParams cfg).units = u)
    ∧ (∀ (name : Option String) (weather : Option (List WeatherEntry))
          (m : MainData) (wd : Option WindData) (custom : Option String) (t : Int),
        m.temp = some t → weather ≠ some [] →
        ∃ parts, buildWeatherParts ⟨name, weather, some m, wd⟩ u custom = some parts
          ∧ s!"Temperature: {t}° ({u})." ∈ parts) := by
  constructor
  · intro k c la lo cl hk hforms
    have hcond : (!strTruthy c && !(strTruthy la && strTruthy lo)) = false := by
      rcases hforms with h | ⟨h1, h2⟩
      · simp [h]
      · simp [h1, h2]
    refine ⟨{ api_key := k.getD "", city := c, latitude := la, longitude := lo,
              units := u, custom_location := cl }, ?_, rfl, ?_⟩
    · simp [weatherFromEnv, hk, hcond]
      intro hc
      rcases hforms with h | h
      · rw [hc] at h
        cases h
      · exact h
    · exact fetchParams_units _
  · intro name weather m wd custom t ht h
    rcases weather with _ | (_ | ⟨⟨_ | d⟩, r⟩)
    · exact ⟨_, rfl, by simp [buildWeatherParts, ht, optLine]⟩
    · exact absurd rfl h
    · exact ⟨_, rfl, by simp [buildWeatherParts, ht, optLine]⟩
    · exact ⟨_, rfl, by simp [buildWeatherParts, ht, optLine]⟩

/-- Witness for C10: the out-of-enumeration units string `bananas` is
accepted, stored, sent, and rendered verbatim. -/
theorem units_passed_through_unvalidated_witness :
    (∃ cfg, weatherFromEnv (some "k") (some "Berlin,de") none none
        (some "bananas") none = .ok cfg
      ∧ cfg.units = "bananas" ∧ (fetchParams cfg).units = "bananas")
    ∧ (∃ parts, buildWeatherParts scenarioA "bananas" none = some parts
        ∧ "Temperature: 18° (bananas)." ∈ parts) := by
  constructor
  · exact (units_passed_through_unvalidated "bananas" (by decide)).1
      (some "k") (some "Berlin,de") none none none (by decide) (Or.inl (by decide))
  · have h := (units_passed_through_unvalidated "bananas" (by decide)).2
      (some "Berlin") (some [{ description := some "clear sky" }])
      { temp := some 18, feels_like := some 17, humidity := some 40,
        pressure := some 1012 }
      (some { speed := some 3 }) none 18 rfl (by decide)
    simpa [scenarioA] using h

end WeatherNotif
